import Mathlib

/-!
Verification of the state-tracking and change-detection core of a
YouTube-channel monitoring service (shallow embedding of its Python source).

The embedded operations:
* `checkChannel` — the per-channel body of `MonitorService._check_channels`
  (monitoring.py, lines 100-140): full-list diff against persisted state.
* `monitorChannelStep` — the per-channel body of `monitor_channels`
  (youtube_monitor.py, lines 316-326): legacy latest-only mode.
* `Cache.get` / `Cache.set` — the TTL key-value store (cache.py).
* `get_channel_id` / `convert_and_add_channel` — identifier resolution
  (youtube_api.py / config.py).
-/

/-- One polled item, as built by `YouTubeAPI.get_recent_videos`
(youtube_api.py, lines 263-272).  Only the fields the monitoring core and
the notifier read are carried. -/
structure Video where
  id : String
  title : String
  published_at : String
  url : String
  thumbnail : String
  description : String
deriving DecidableEq, Repr

/-- An invocation of the notification service by the monitor
(monitoring.py, lines 125-134): either
`notification_service.send_video_notification(title, video)` or
`notification_service.send_multiple_videos_notification(title, videos)`. -/
inductive NotifCall where
  | single (channelTitle : String) (video : Video)
  | multiple (channelTitle : String) (videos : List Video)
deriving DecidableEq, Repr

/-- Result of processing one channel in one polling cycle of
`MonitorService._check_channels`: the new videos found, the value the
channel's entry in `channel_states` holds after the step, and the calls
made to the notification service. -/
structure CheckResult where
  newVideos : List Video
  newState : List String
  notifCalls : List NotifCall
deriving DecidableEq, Repr

/-- Per-channel body of `MonitorService._check_channels`
(monitoring.py, lines 100-140), given the persisted
`last_video_ids = channel_states.get(channel_id, [])` and the fetched
`current_videos`.

* `if not last_video_ids:` (line 104): first check — store the ids of ALL
  current videos (line 106 has no `[:20]` slice) and `continue` with no
  notification.
* Otherwise `new_videos = [v for v in current_videos if v['id'] not in
  last_video_ids]` (line 112).
* `if new_videos:` (line 114): persist `[v['id'] for v in
  current_videos[:20]]` (line 120) and send exactly one notification —
  single-video form when `len(new_videos) == 1`, batched form otherwise
  (lines 125-134).  With no new videos the state entry is left unchanged
  and nothing is sent. -/
def checkChannel (last_video_ids : List String) (current_videos : List Video)
    (channelTitle : String) : CheckResult :=
  if last_video_ids.isEmpty then
    { newVideos := [], newState := current_videos.map (·.id), notifCalls := [] }
  else
    let new_videos := current_videos.filter (fun v => !(last_video_ids.contains v.id))
    if new_videos.isEmpty then
      { newVideos := [], newState := last_video_ids, notifCalls := [] }
    else
      { newVideos := new_videos,
        newState := (current_videos.take 20).map (·.id),
        notifCalls :=
          match new_videos with
          | [v] => [NotifCall.single channelTitle v]
          | vs => [NotifCall.multiple channelTitle vs] }

/-- Helper used in concrete scenarios: a video that only carries its id. -/
def mkVideo (i : String) : Video :=
  { id := i, title := "", published_at := "", url := "", thumbnail := "", description := "" }

example :
    checkChannel ["v3", "v2", "v1"] [mkVideo "v4", mkVideo "v3", mkVideo "v2"] "ch" =
      { newVideos := [mkVideo "v4"], newState := ["v4", "v3", "v2"],
        notifCalls := [NotifCall.single "ch" (mkVideo "v4")] } := by decide

example :
    checkChannel [] [mkVideo "v3", mkVideo "v2", mkVideo "v1"] "ch" =
      { newVideos := [], newState := ["v3", "v2", "v1"], notifCalls := [] } := by decide

/-- One video in the legacy latest-only monitor, as built by
`get_latest_video` (youtube_monitor.py, lines 236-242). -/
structure LatestVideo where
  id : String
  title : String
  channel_title : String
  published_at : String
  url : String
deriving DecidableEq, Repr

/-- Result of processing one channel in one cycle of the legacy
latest-only monitor: the value stored under the channel's key of
`channel_states` after the step, and the notification sent, if any. -/
structure LatestStepResult where
  newState : Option String
  sentNotification : Option LatestVideo
deriving DecidableEq, Repr

/-- Per-channel body of `monitor_channels` (youtube_monitor.py, lines
316-326), the legacy latest-only polling mode.  The persisted state per
channel is the single string `channel_states[channel_key]`
(`last_video_id = channel_states.get(channel_key)`, absent on the first
check).

* `if last_video_id != video['id']:` (line 318) — a new video (or first
  check): the state entry is overwritten with just `video['id']`
  (line 321), and `send_notification` is called only when
  `last_video_id is not None` (lines 323-324).
* Otherwise nothing changes and nothing is sent. -/
def monitorChannelStep (last_video_id : Option String) (video : LatestVideo) :
    LatestStepResult :=
  if last_video_id ≠ some video.id then
    { newState := some video.id,
      sentNotification := if last_video_id.isSome then some video else none }
  else
    { newState := last_video_id, sentNotification := none }

/-- Helper used in concrete scenarios: a latest-only video that only
carries its id. -/
def mkLatestVideo (i : String) : LatestVideo :=
  { id := i, title := "", channel_title := "", published_at := "", url := "" }

example :
    monitorChannelStep (some "v3") (mkLatestVideo "v4") =
      { newState := some "v4", sentNotification := some (mkLatestVideo "v4") } := by decide

/-- JSON values, the data stored by the key-value cache (cache.py).
`null` doubles as Python's `None`: `Cache.get` signals absence by
returning `None`, which is JSON `null`. -/
inductive JValue where
  | null
  | bool (b : Bool)
  | num (n : Int)
  | str (s : String)
  | arr (xs : List JValue)
  | obj (fields : List (String × JValue))

/-- One entry of the cache file: `{'timestamp': ..., 'data': ...}`
(cache.py, lines 64-67).  `timestamp` is the parse of the stored
`'%Y-%m-%d %H:%M:%S'` string as seconds; `none` models a missing, empty
or unparseable timestamp field (the `if not timestamp` check on line 45,
and the `ValueError` branch of `_is_expired` on lines 25-26, which both
make `get` return `None`). -/
structure CacheEntry where
  timestamp : Option Nat
  data : JValue

namespace Cache

/-- The contents of the cache's backing file: `none` models a missing
file (`os.path.exists` false, line 31) or contents that fail to parse as
JSON (the `json.JSONDecodeError` handler, lines 37-38); `some m` is the
parsed JSON object, an association list keyed by string. -/
abbrev File := Option (List (String × CacheEntry))

/-- `Cache._is_expired` (cache.py, lines 17-26) on an already-parsed
timestamp: a TTL of 0 never expires; otherwise the entry is expired when
`datetime.now() - cached_time > timedelta(seconds=ttl_seconds)`.  Times
are modelled as seconds; Nat subtraction truncates at zero exactly as a
negative timedelta is never `> ttl` for positive ttl. -/
def isExpired (ttl_seconds : Nat) (cached_time now : Nat) : Bool :=
  if ttl_seconds == 0 then false else decide (now - cached_time > ttl_seconds)

/-- Python `dict` assignment `cache_data[key] = entry` on the JSON
object read from the file: replace the first binding of `key`, else
append a new one. -/
def setKey (m : List (String × CacheEntry)) (k : String) (e : CacheEntry) :
    List (String × CacheEntry) :=
  match m with
  | [] => [(k, e)]
  | (k', e') :: rest => if k' == k then (k, e) :: rest else (k', e') :: setKey rest k e

/-- `Cache.get` (cache.py, lines 28-48).  Every early `return None` in
the source becomes `JValue.null` (Python's `None`).  A missing or
unparseable file, a missing key, a missing/bad timestamp and an expired
entry all return `None`; otherwise `entry.get('data')` is returned.  The
embedding is a total function: the source's `except` handler (lines
37-38) is the `none` case of the file, so `get` never raises. -/
def get (ttl_seconds : Nat) (file : File) (key : String) (now : Nat) : JValue :=
  match file with
  | none => .null
  | some cache_data =>
    match cache_data.lookup key with
    | none => .null
    | some entry =>
      match entry.timestamp with
      | none => .null
      | some ts => if isExpired ttl_seconds ts now then .null else entry.data

/-- `Cache.set` (cache.py, lines 50-71): load the existing contents
(empty object when the file is missing or unparseable, lines 54-61),
store `{'timestamp': now, 'data': value}` under `key` (lines 64-67) and
write the whole object back (lines 70-71). -/
def set (file : File) (key : String) (value : JValue) (now : Nat) : File :=
  let cache_data := match file with | none => [] | some d => d
  some (setKey cache_data key { timestamp := some now, data := value })

end Cache

example :
    Cache.get 1800 (Cache.set none "k" (JValue.str "hello") 100) "k" 200 =
      JValue.str "hello" := rfl

/-- Python's `str.startswith`: the characters of `p` are an initial
segment of the characters of `s`. -/
def pyStartswith (s p : String) : Bool := p.data.isPrefixOf s.data

/-- The collaborators of `YouTubeAPI.get_channel_id` (youtube_api.py):
the `youtube_cache` lookup for `username_<identifier>` keys, and the two
external endpoints.  `handleResponse` models
`channels().list(forHandle=...)` and `searchResponse` models
`search().list(q=..., type='channel')`; `none` covers both an empty
`items` response and an `HttpError`. -/
structure ResolveEnv where
  cachedLookup : String → Option String
  handleResponse : String → Option String
  searchResponse : String → Option String

/-- What one call to `YouTubeAPI.get_channel_id` did: its return value,
which cache keys it read and wrote, and how many external API requests
it issued. -/
structure ResolveResult where
  result : Option String
  cacheReads : List String
  cacheWrites : List (String × String)
  apiCalls : Nat
deriving DecidableEq, Repr

/-- `YouTubeAPI.get_channel_id` (youtube_api.py, lines 17-79), with its
effects tracked.

* Lines 20-21: an identifier that is exactly 24 characters and starts
  with `'UC'` is returned as-is, before the cache is consulted.
* Lines 24-26: otherwise the cache is read at `username_<identifier>`;
  a hit is returned (`if cached_channel_id:` — an empty cached string is
  falsy and falls through to the API).
* Lines 30-71: one API request — `forHandle` when the identifier starts
  with `'@'`, otherwise a channel search (the `elif` and `else` branches,
  lines 43-71, issue the same search request).
* Lines 74-75: a successful resolution is written back to the cache. -/
def get_channel_id (env : ResolveEnv) (identifier : String) : ResolveResult :=
  if identifier.length == 24 && pyStartswith identifier "UC" then
    { result := some identifier, cacheReads := [], cacheWrites := [], apiCalls := 0 }
  else
    let cacheKey := "username_" ++ identifier
    let afterMiss : ResolveResult :=
      let fetched :=
        if pyStartswith identifier "@" then env.handleResponse identifier
        else env.searchResponse identifier
      match fetched with
      | none =>
        { result := none, cacheReads := [cacheKey], cacheWrites := [], apiCalls := 1 }
      | some channel_id =>
        { result := some channel_id, cacheReads := [cacheKey],
          cacheWrites := [(cacheKey, channel_id)], apiCalls := 1 }
    match env.cachedLookup cacheKey with
    | none => afterMiss
    | some cached_channel_id =>
      if cached_channel_id.isEmpty then afterMiss
      else
        { result := some cached_channel_id, cacheReads := [cacheKey],
          cacheWrites := [], apiCalls := 0 }

/-- Result of `Config.convert_and_add_channel`: the `(bool, str)` pair
the source returns, the updated channels dictionary, and whether the
YouTube API's `get_channel_id` was invoked for the conversion. -/
structure ConvertResult where
  ok : Bool
  message : String
  channels : List (String × String)
  usedApi : Bool
deriving DecidableEq, Repr

/-- `Config.convert_and_add_channel` (config.py, lines 59-80).

* Lines 62-64: an identifier starting with `'UC'` of length 24 is used
  directly as the channel id — no conversion call.
* Lines 65-67: with no YouTube API object supplied, the identifier is
  added as-is.
* Lines 68-72: otherwise `youtube_api.get_channel_id` is called
  (modelled by the oracle `apiResolve`; `none`/empty covers the falsy
  `if not channel_id` check).
* Lines 74-80: a duplicate identifier is rejected, otherwise the pair
  is appended to the dictionary and saved. -/
def convert_and_add_channel (channels : List (String × String)) (identifier : String)
    (hasApi : Bool) (apiResolve : String → Option String) : ConvertResult :=
  let conv : Option String × Bool :=
    if pyStartswith identifier "UC" && identifier.length == 24 then (some identifier, false)
    else if !hasApi then (some identifier, false)
    else
      (match apiResolve identifier with
       | none => none
       | some cid => if cid.isEmpty then none else some cid, true)
  match conv with
  | (none, usedApi) =>
    { ok := false, message := "Could not find channel. Please check the username or channel ID.",
      channels := channels, usedApi := usedApi }
  | (some channel_id, usedApi) =>
    if (channels.lookup identifier).isSome then
      { ok := false, message := "Channel already exists.",
        channels := channels, usedApi := usedApi }
    else
      { ok := true, message := channel_id,
        channels := channels ++ [(identifier, channel_id)], usedApi := usedApi }

example :
    convert_and_add_channel [] "UC0123456789abcdefghijkl" true (fun _ => none) =
      { ok := true, message := "UC0123456789abcdefghijkl",
        channels := [("UC0123456789abcdefghijkl", "UC0123456789abcdefghijkl")],
        usedApi := false } := by decide

/-- A first-observation list of 21 distinct videos, used to probe the
missing `[:20]` bound on the first-check path of `_check_channels`. -/
def vids21 : List Video := (List.range 21).map (fun n => mkVideo (toString n))

/-! Helper lemmas about `checkChannel`, shared by several theorems. -/

theorem checkChannel_newVideos_of_ne_nil (last : List String) (cur : List Video)
    (t : String) (h : last ≠ []) :
    (checkChannel last cur t).newVideos
      = cur.filter (fun v => !(last.contains v.id)) := by
  have hne : last.isEmpty = false := by
    simpa [List.isEmpty_iff] using h
  unfold checkChannel
  rw [hne]
  simp only [Bool.false_eq_true, if_false]
  split
  case isTrue h2 =>
    simp only [List.isEmpty_iff] at h2
    exact h2.symm
  case isFalse h2 => rfl

theorem checkChannel_newState_first (cur : List Video) (t : String) :
    (checkChannel [] cur t).newState = cur.map (·.id) := rfl

theorem checkChannel_newState_no_new (last : List String) (cur : List Video)
    (t : String) (h : last ≠ [])
    (h2 : cur.filter (fun v => !(last.contains v.id)) = []) :
    (checkChannel last cur t).newState = last := by
  have hne : last.isEmpty = false := by
    simpa [List.isEmpty_iff] using h
  unfold checkChannel
  rw [hne]
  simp only [Bool.false_eq_true, if_false]
  split
  case isTrue h3 => rfl
  case isFalse h3 => exact absurd (by rw [h2]; rfl) h3

theorem checkChannel_newState_new (last : List String) (cur : List Video)
    (t : String) (h : last ≠ [])
    (h2 : cur.filter (fun v => !(last.contains v.id)) ≠ []) :
    (checkChannel last cur t).newState = (cur.take 20).map (·.id) := by
  have hne : last.isEmpty = false := by
    simpa [List.isEmpty_iff] using h
  unfold checkChannel
  rw [hne]
  simp only [Bool.false_eq_true, if_false]
  split
  case isTrue h3 =>
    simp only [List.isEmpty_iff] at h3
    exact absurd h3 h2
  case isFalse h3 => rfl

theorem filter_not_contains_own_ids (cur : List Video) :
    cur.filter (fun v => !((cur.map (·.id)).contains v.id)) = [] := by
  rw [List.filter_eq_nil_iff]
  intro v hv
  simp only [Bool.not_eq_true', Bool.not_eq_true]
  have : v.id ∈ cur.map (·.id) := List.mem_map_of_mem _ hv
  simpa [List.contains] using this

theorem checkChannel_own_ids_no_new (cur : List Video) (t : String) :
    (checkChannel (cur.map (·.id)) cur t).newVideos = [] := by
  rcases eq_or_ne cur [] with hc | hc
  · subst hc; rfl
  · have hne : cur.map (·.id) ≠ [] := by
      simpa [List.map_eq_nil_iff] using hc
    rw [checkChannel_newVideos_of_ne_nil _ _ _ hne]
    exact filter_not_contains_own_ids cur

/-- Claim C1: with a non-empty persisted state, the new items are exactly
the current items whose id is not among the persisted ids, in the
original order (`newVideos` is a sublist of `current_videos`), and only
ids are consulted: any item list with the same ids (any titles,
timestamps, urls) yields the same new-item ids. -/
theorem c1_new_items_are_id_filter (last : List String) (cur cur' : List Video)
    (t : String) (h : last ≠ []) (hids : cur'.map (·.id) = cur.map (·.id)) :
    (checkChannel last cur t).newVideos
        = cur.filter (fun v => !(last.contains v.id))
      ∧ (checkChannel last cur t).newVideos.Sublist cur
      ∧ (checkChannel last cur' t).newVideos.map (·.id)
          = (checkChannel last cur t).newVideos.map (·.id) := by
  have key : ∀ (P : String → Bool) (xs ys : List Video),
      xs.map (·.id) = ys.map (·.id) →
      (xs.filter (fun v => P v.id)).map (·.id)
        = (ys.filter (fun v => P v.id)).map (·.id) := by
    intro P xs
    induction xs with
    | nil =>
      intro ys hmap
      cases ys with
      | nil => rfl
      | cons y ys' => simp at hmap
    | cons x xs ih =>
      intro ys hmap
      cases ys with
      | nil => simp at hmap
      | cons y ys' =>
        simp only [List.map_cons, List.cons.injEq] at hmap
        obtain ⟨hid, hrest⟩ := hmap
        simp only [List.filter_cons, hid]
        by_cases hp : P y.id
        · simp [hp, hid, ih ys' hrest]
        · simp [hp, ih ys' hrest]
  refine ⟨checkChannel_newVideos_of_ne_nil last cur t h, ?_, ?_⟩
  · rw [checkChannel_newVideos_of_ne_nil last cur t h]
    exact List.filter_sublist cur
  · rw [checkChannel_newVideos_of_ne_nil last cur t h,
      checkChannel_newVideos_of_ne_nil last cur' t h]
    exact key (fun i => !(last.contains i)) cur' cur hids

/-- Witness for C1 at a concrete input: state `["v1"]`, current items
`v2` then `v1`, and a variant of the current items with the same ids but
different timestamps. -/
theorem c1_new_items_are_id_filter_witness :
    (["v1"] : List String) ≠ [] ∧
      [{ mkVideo "v2" with published_at := "1999" },
        { mkVideo "v1" with published_at := "1999" }].map (·.id)
        = [{ mkVideo "v2" with published_at := "2024" },
            { mkVideo "v1" with published_at := "2024" }].map (·.id) ∧
      ((checkChannel ["v1"]
          [{ mkVideo "v2" with published_at := "2024" },
            { mkVideo "v1" with published_at := "2024" }] "ch").newVideos
          = [{ mkVideo "v2" with published_at := "2024" },
              { mkVideo "v1" with published_at := "2024" }].filter
              (fun v => !((["v1"] : List String).contains v.id))
        ∧ (checkChannel ["v1"]
            [{ mkVideo "v2" with published_at := "2024" },
              { mkVideo "v1" with published_at := "2024" }] "ch").newVideos.Sublist
            [{ mkVideo "v2" with published_at := "2024" },
              { mkVideo "v1" with published_at := "2024" }]
        ∧ (checkChannel ["v1"]
            [{ mkVideo "v2" with published_at := "1999" },
              { mkVideo "v1" with published_at := "1999" }] "ch").newVideos.map (·.id)
            = (checkChannel ["v1"]
                [{ mkVideo "v2" with published_at := "2024" },
                  { mkVideo "v1" with published_at := "2024" }] "ch").newVideos.map (·.id)) :=
  ⟨by decide, by decide,
    c1_new_items_are_id_filter ["v1"]
      [{ mkVideo "v2" with published_at := "2024" },
        { mkVideo "v1" with published_at := "2024" }]
      [{ mkVideo "v2" with published_at := "1999" },
        { mkVideo "v1" with published_at := "1999" }]
      "ch" (by decide) (by decide)⟩



/-- Claim C2 counterexample: on a first observation of 21 items the
monitor stores all 21 ids — the first-check path (monitoring.py, line
106) has no `[:20]` bound, so the persisted list is not "the ids of
currentItems bounded to at most 20 entries". -/
theorem c2_unbounded_first_observation_counterexample :
    (checkChannel [] vids21 "ch").newVideos = []
      ∧ (checkChannel [] vids21 "ch").newState.length = 21
      ∧ ¬((checkChannel [] vids21 "ch").newState.length ≤ 20) := by decide

/-- Claim C2 (amended): on a first observation with non-empty
currentItems, reconcile returns no new items and dispatches nothing, and
persists the ids of ALL of currentItems, in order — the 20-entry bound
is not applied on this path (it coincides with the claim only when
currentItems has at most 20 entries, which the fetcher guarantees by
requesting 10 videos). -/
theorem c2_first_observation_seeds_all_ids (cur : List Video) (t : String)
    (_h : cur ≠ []) :
    (checkChannel [] cur t).newVideos = []
      ∧ (checkChannel [] cur t).newState = cur.map (·.id)
      ∧ (checkChannel [] cur t).notifCalls = [] :=
  ⟨rfl, rfl, rfl⟩

/-- Witness for C2 (amended) at a concrete first observation. -/
theorem c2_first_observation_seeds_all_ids_witness :
    ([mkVideo "a", mkVideo "b"] : List Video) ≠ []
      ∧ ((checkChannel [] [mkVideo "a", mkVideo "b"] "ch").newVideos = []
        ∧ (checkChannel [] [mkVideo "a", mkVideo "b"] "ch").newState
            = [mkVideo "a", mkVideo "b"].map (·.id)
        ∧ (checkChannel [] [mkVideo "a", mkVideo "b"] "ch").notifCalls = []) :=
  ⟨by decide, c2_first_observation_seeds_all_ids [mkVideo "a", mkVideo "b"] "ch" (by decide)⟩

/-- Claim C3 counterexample: after a first-observation reconcile of 21
items the persisted list has 21 entries, so `recentItemIds.length ≤ 20`
does not hold after every reconcile call. -/
theorem c3_bound_violated_counterexample :
    ¬((checkChannel [] vids21 "ch").newState.length ≤ 20) := by decide

/-- Claim C3 (amended): the 20-entry bound is preserved, not
unconditionally established — after any reconcile call in which the
prior persisted list has at most 20 entries and currentItems has at most
20 entries, the persisted list still has at most 20 entries.  (The
first-observation path stores all ids unbounded; the fetcher's 10-item
requests keep the bound in practice.) -/
theorem c3_bound_preserved (last : List String) (cur : List Video) (t : String)
    (h1 : last.length ≤ 20) (h2 : cur.length ≤ 20) :
    (checkChannel last cur t).newState.length ≤ 20 := by
  rcases eq_or_ne last [] with hl | hl
  · subst hl
    rw [checkChannel_newState_first]
    simpa using h2
  · rcases eq_or_ne (cur.filter (fun v => !(last.contains v.id))) [] with hf | hf
    · rw [checkChannel_newState_no_new last cur t hl hf]
      exact h1
    · rw [checkChannel_newState_new last cur t hl hf]
      simp only [List.length_map, List.length_take]
      exact le_trans inf_le_left (le_refl 20)

/-- Witness for C3 (amended) at a concrete input. -/
theorem c3_bound_preserved_witness :
    (["x"] : List String).length ≤ 20
      ∧ ([mkVideo "a"] : List Video).length ≤ 20
      ∧ (checkChannel ["x"] [mkVideo "a"] "ch").newState.length ≤ 20 :=
  ⟨by decide, by decide, c3_bound_preserved ["x"] [mkVideo "a"] "ch" (by decide) (by decide)⟩

/-- Claim C4 counterexample: with prior state `[v3, v2, v1]` and current
items `[v4, v3, v2]`, the code persists the ids of the current items
(`current_videos[:20]`, monitoring.py line 120), i.e. `[v4, v3, v2]` —
not `[v4, v3, v2, v1]` as the claim states (v1 is dropped). -/
theorem c4_scenario_b_counterexample :
    (checkChannel ["v3", "v2", "v1"] [mkVideo "v4", mkVideo "v3", mkVideo "v2"]
        "ch").newVideos.map (·.id) = ["v4"]
      ∧ (checkChannel ["v3", "v2", "v1"] [mkVideo "v4", mkVideo "v3", mkVideo "v2"]
          "ch").newState ≠ ["v4", "v3", "v2", "v1"] := by decide

/-- Claim C4 (amended): in full-refresh mode, with prior state
`[v3, v2, v1]` and current items `[v4, v3, v2]`, reconcile returns
`newItems = [v4]` and persists `[v4, v3, v2]` — the ids of currentItems
truncated at 20; the full refresh drops `v1`. -/
theorem c4_scenario_b_full_refresh :
    checkChannel ["v3", "v2", "v1"] [mkVideo "v4", mkVideo "v3", mkVideo "v2"] "ch" =
      { newVideos := [mkVideo "v4"], newState := ["v4", "v3", "v2"],
        notifCalls := [NotifCall.single "ch" (mkVideo "v4")] } := by decide

/-- Claim C5 counterexample: with 21 current items and prior state
`["x"]`, the first reconcile stores only the first 20 ids
(`current_videos[:20]`), so an immediately repeated reconcile with the
same items reports the 21st item as new again — the second call's
newItems is not empty. -/
theorem c5_idempotence_counterexample :
    (checkChannel (checkChannel ["x"] vids21 "ch").newState vids21 "ch").newVideos
      ≠ [] := by decide

/-- Claim C5 (amended): reconcile is idempotent whenever currentItems
has at most 20 entries (as the 10-item fetches guarantee): running
reconcile and immediately running it again with the same currentItems
yields no new items the second time.  With more than 20 items the `[:20]`
truncation breaks this. -/
theorem c5_idempotent_upto_20 (last : List String) (cur : List Video) (t : String)
    (h : cur.length ≤ 20) :
    (checkChannel (checkChannel last cur t).newState cur t).newVideos = [] := by
  rcases eq_or_ne last [] with hl | hl
  · subst hl
    rw [checkChannel_newState_first]
    exact checkChannel_own_ids_no_new cur t
  · rcases eq_or_ne (cur.filter (fun v => !(last.contains v.id))) [] with hf | hf
    · rw [checkChannel_newState_no_new last cur t hl hf,
        checkChannel_newVideos_of_ne_nil last cur t hl]
      exact hf
    · rw [checkChannel_newState_new last cur t hl hf, List.take_of_length_le h]
      exact checkChannel_own_ids_no_new cur t

/-- Witness for C5 (amended) at a concrete input with a genuinely new
item on the first call. -/
theorem c5_idempotent_upto_20_witness :
    ([mkVideo "v4", mkVideo "v3"] : List Video).length ≤ 20
      ∧ (checkChannel
          (checkChannel ["v3"] [mkVideo "v4", mkVideo "v3"] "ch").newState
          [mkVideo "v4", mkVideo "v3"] "ch").newVideos = [] :=
  ⟨by decide, c5_idempotent_upto_20 ["v3"] [mkVideo "v4", mkVideo "v3"] "ch" (by decide)⟩

/-- Claim C6 counterexample: in the legacy latest-only mode, after a
cycle with prior id `v3` and fetched video `v4`, the persisted state for
the channel is the single id `"v4"` — `channel_states[channel_key] =
video['id']` (youtube_monitor.py, line 321) — so the retained ids are
`["v4"]`, not `["v4", "v3"]`: nothing is prepended and `v3` is
discarded. -/
theorem c6_latest_mode_counterexample :
    (monitorChannelStep (some "v3") (mkLatestVideo "v4")).newState.toList = ["v4"]
      ∧ (monitorChannelStep (some "v3") (mkLatestVideo "v4")).newState.toList
          ≠ ["v4", "v3"] := by decide

/-- Claim C6 (amended): in latest-only polling mode, with prior
persisted id `v3` and a fetch returning `v4`, the cycle reports `v4` as
the single new item (one notification is sent for it) and the persisted
state becomes just the id `v4` — the newest id replaces the old one;
this legacy mode keeps a single id per channel, with no prepending and
no 20-entry bound. -/
theorem c6_latest_mode_replaces_state :
    monitorChannelStep (some "v3") (mkLatestVideo "v4") =
      { newState := some "v4", sentNotification := some (mkLatestVideo "v4") } := by decide

/-- `NotificationService.send_multiple_videos_notification`
(notifications.py, lines 100-202), at the level of provider calls: which
`resend.Emails.send` requests it issues and what it returns.

* Lines 102-104: not configured — return `False`, no request.
* Lines 106-107: empty video list — return `False`, no request.
* Otherwise exactly one `resend.Emails.send` request (lines 162-192)
  whose subject counts all videos, whose body renders `videos[:10]`
  (line 112) and, when there are more than 10, a note with the count of
  the rest (lines 158-160). -/
structure EmailSend where
  subject : String
  renderedVideos : List Video
  extraCount : Nat
deriving DecidableEq, Repr

def send_multiple_videos_notification (is_configured : Bool)
    (channel_name : String) (videos : List Video) : List EmailSend × Bool :=
  if !is_configured then ([], false)
  else if videos.isEmpty then ([], false)
  else
    ([{ subject := "🎬 " ++ toString videos.length ++ " New Videos: " ++ channel_name,
        renderedVideos := videos.take 10,
        extraCount := if videos.length > 10 then videos.length - 10 else 0 }],
      true)

/-- Claim C7: whenever a cycle finds a non-empty list of new videos for
a channel, the monitor makes exactly one call to the notification
service for that channel — the single-video call carrying the one item
when there is one, the batched call carrying the whole list when there
are several — and the batched service call itself issues exactly one
outbound email request. -/
theorem c7_exactly_one_notification (last : List String) (cur : List Video)
    (t : String) (h : (checkChannel last cur t).newVideos ≠ []) :
    (checkChannel last cur t).notifCalls.length = 1
      ∧ ((∃ v, (checkChannel last cur t).newVideos = [v]
            ∧ (checkChannel last cur t).notifCalls = [NotifCall.single t v])
        ∨ (2 ≤ (checkChannel last cur t).newVideos.length
            ∧ (checkChannel last cur t).notifCalls
                = [NotifCall.multiple t (checkChannel last cur t).newVideos]))
      ∧ (send_multiple_videos_notification true t
          (checkChannel last cur t).newVideos).1.length = 1 := by
  have hl : last ≠ [] := by
    intro hc
    subst hc
    exact h rfl
  have hnv := checkChannel_newVideos_of_ne_nil last cur t hl
  have hf : cur.filter (fun v => !(last.contains v.id)) ≠ [] := by
    intro hc
    exact h (hnv.trans hc)
  have hne : last.isEmpty = false := by
    simpa [List.isEmpty_iff] using hl
  have hcalls : (checkChannel last cur t).notifCalls
      = match cur.filter (fun v => !(last.contains v.id)) with
        | [v] => [NotifCall.single t v]
        | vs => [NotifCall.multiple t vs] := by
    unfold checkChannel
    rw [hne]
    simp only [Bool.false_eq_true, if_false]
    split
    case isTrue h3 =>
      simp only [List.isEmpty_iff] at h3
      exact absurd h3 hf
    case isFalse h3 => rfl
  have hemail : (send_multiple_videos_notification true t
      (checkChannel last cur t).newVideos).1.length = 1 := by
    have hnv' : (checkChannel last cur t).newVideos.isEmpty = false := by
      simpa [List.isEmpty_iff] using h
    simp [send_multiple_videos_notification, hnv']
  rcases hm : cur.filter (fun v => !(last.contains v.id)) with _ | ⟨a, _ | ⟨b, l⟩⟩
  · exact absurd hm hf
  · rw [hm] at hnv hcalls
    have hcalls' : (checkChannel last cur t).notifCalls = [NotifCall.single t a] :=
      hcalls
    exact ⟨by rw [hcalls']; rfl, Or.inl ⟨a, hnv, hcalls'⟩, hemail⟩
  · rw [hm] at hnv hcalls
    have hcalls' : (checkChannel last cur t).notifCalls
        = [NotifCall.multiple t (a :: b :: l)] := hcalls
    refine ⟨by rw [hcalls']; rfl, Or.inr ⟨?_, ?_⟩, hemail⟩
    · rw [hnv]
      exact Nat.le_add_left 2 l.length
    · rw [hcalls', hnv]

/-- Witness for C7: three new items produce exactly one batched call
with all three, not three calls (Scenario E). -/
theorem c7_exactly_one_notification_witness :
    (checkChannel ["x"] [mkVideo "a", mkVideo "b", mkVideo "c"] "ch").newVideos ≠ []
      ∧ ((checkChannel ["x"] [mkVideo "a", mkVideo "b", mkVideo "c"]
            "ch").notifCalls.length = 1
        ∧ ((∃ v, (checkChannel ["x"] [mkVideo "a", mkVideo "b", mkVideo "c"]
                "ch").newVideos = [v]
              ∧ (checkChannel ["x"] [mkVideo "a", mkVideo "b", mkVideo "c"]
                  "ch").notifCalls = [NotifCall.single "ch" v])
          ∨ (2 ≤ (checkChannel ["x"] [mkVideo "a", mkVideo "b", mkVideo "c"]
                "ch").newVideos.length
              ∧ (checkChannel ["x"] [mkVideo "a", mkVideo "b", mkVideo "c"]
                  "ch").notifCalls
                  = [NotifCall.multiple "ch"
                      (checkChannel ["x"] [mkVideo "a", mkVideo "b", mkVideo "c"]
                        "ch").newVideos]))
        ∧ (send_multiple_videos_notification true "ch"
            (checkChannel ["x"] [mkVideo "a", mkVideo "b", mkVideo "c"]
              "ch").newVideos).1.length = 1) :=
  ⟨by decide,
    c7_exactly_one_notification ["x"] [mkVideo "a", mkVideo "b", mkVideo "c"] "ch"
      (by decide)⟩

/-- Looking up the key just written by a dict update finds the new
entry, whatever the map held before. -/
theorem lookup_setKey (m : List (String × CacheEntry)) (k : String) (e : CacheEntry) :
    List.lookup k (Cache.setKey m k e) = some e := by
  induction m with
  | nil => simp [Cache.setKey, List.lookup]
  | cons p rest ih =>
    obtain ⟨k', e'⟩ := p
    unfold Cache.setKey
    rcases hk : (k' == k) with _ | _
    · have hne : k ≠ k' := by
        intro hkeq
        rw [hkeq] at hk
        simp at hk
      have hkk : (k == k') = false := by
        simpa using hne
      simp only [hk, Bool.false_eq_true, if_false, List.lookup, hkk]
      exact ih
    · simp only [hk, if_true, List.lookup]
      simp

/-- `Cache.get` on a successfully parsed file, unfolded one step. -/
theorem Cache.get_parsed (ttl_seconds : Nat) (m : List (String × CacheEntry))
    (key : String) (now : Nat) :
    Cache.get ttl_seconds (some m) key now
      = (match List.lookup key m with
        | none => JValue.null
        | some entry =>
          match entry.timestamp with
          | none => JValue.null
          | some ts =>
            if Cache.isExpired ttl_seconds ts now then JValue.null
            else entry.data) := rfl

/-- Claim C8: a `set(key, v)` immediately followed by `get(key)` before
the TTL has elapsed (strictly within `ttl_seconds`, or with the
never-expiring TTL of 0) returns `v` itself — JSON-structural equality —
whatever the store held before, including a missing or corrupt file. -/
theorem c8_set_get_roundtrip (ttl_seconds : Nat) (file : Cache.File) (key : String)
    (v : JValue) (t t' : Nat) (h : ttl_seconds = 0 ∨ t' - t ≤ ttl_seconds) :
    Cache.get ttl_seconds (Cache.set file key v t) key t' = v := by
  have hexp : Cache.isExpired ttl_seconds t t' = false := by
    unfold Cache.isExpired
    rcases h with h | h
    · simp [h]
    · rcases eq_or_ne ttl_seconds 0 with h0 | h0
      · simp [h0]
      · have : (ttl_seconds == 0) = false := by simpa using h0
        rw [this]
        simp only [Bool.false_eq_true, if_false, decide_eq_false_iff_not]
        omega
  have hset : Cache.set file key v t
      = some (Cache.setKey (match file with | none => [] | some d => d) key
          { timestamp := some t, data := v }) := rfl
  rw [hset, Cache.get_parsed, lookup_setKey]
  show (if Cache.isExpired ttl_seconds t t' = true then JValue.null else v) = v
  rw [hexp]
  simp

/-- Witness for C8 at a concrete write and read. -/
theorem c8_set_get_roundtrip_witness :
    ((1800 : Nat) = 0 ∨ 200 - 100 ≤ 1800)
      ∧ Cache.get 1800 (Cache.set none "channel_states" (JValue.str "payload") 100)
          "channel_states" 200 = JValue.str "payload" :=
  ⟨by decide,
    c8_set_get_roundtrip 1800 none "channel_states" (JValue.str "payload") 100 200
      (by decide)⟩

/-- Claim C9: `get` is a total function of the file contents — the
source's `except (json.JSONDecodeError, FileNotFoundError)` handler
(cache.py, lines 37-38) means it never raises — and on a missing or
unparseable backing file (`none`) it returns `None`, exactly the value a
plain cache miss (a parsed file without the key) returns: the caller
cannot tell the two apart. -/
theorem c9_missing_or_corrupt_is_miss (ttl_seconds now : Nat) (key : String)
    (m : List (String × CacheEntry)) (h : List.lookup key m = none) :
    Cache.get ttl_seconds none key now = JValue.null
      ∧ Cache.get ttl_seconds (some m) key now = JValue.null
      ∧ Cache.get ttl_seconds none key now = Cache.get ttl_seconds (some m) key now := by
  have hmiss : Cache.get ttl_seconds (some m) key now = JValue.null := by
    rw [Cache.get_parsed, h]
  exact ⟨rfl, hmiss, hmiss.symm⟩

/-- Witness for C9: a parsed file holding an unrelated key. -/
theorem c9_missing_or_corrupt_is_miss_witness :
    List.lookup "channel_states"
        [("other_key", CacheEntry.mk (some 5) (JValue.str "x"))] = none
      ∧ (Cache.get 1800 none "channel_states" 7 = JValue.null
        ∧ Cache.get 1800 (some [("other_key", CacheEntry.mk (some 5) (JValue.str "x"))])
            "channel_states" 7 = JValue.null
        ∧ Cache.get 1800 none "channel_states" 7
            = Cache.get 1800 (some [("other_key", CacheEntry.mk (some 5) (JValue.str "x"))])
                "channel_states" 7) :=
  ⟨by rfl,
    c9_missing_or_corrupt_is_miss 1800 7 "channel_states"
      [("other_key", CacheEntry.mk (some 5) (JValue.str "x"))] (by rfl)⟩

/-- Claim C10: an identifier that is exactly 24 characters long and
starts with `"UC"` is returned unchanged by `get_channel_id` with no
cache read, no cache write and no API request — whatever the cache and
the external endpoints would answer — and `convert_and_add_channel`
short-circuits conversion on the same shape test, storing the identifier
itself as the channel id without invoking the API. -/
theorem c10_channel_id_shape_short_circuit (env : ResolveEnv)
    (channels : List (String × String)) (resolve : String → Option String)
    (identifier : String) (h1 : identifier.length = 24)
    (h2 : pyStartswith identifier "UC" = true)
    (h3 : List.lookup identifier channels = none) :
    get_channel_id env identifier
        = { result := some identifier, cacheReads := [], cacheWrites := [],
            apiCalls := 0 }
      ∧ (convert_and_add_channel channels identifier true resolve).usedApi = false
      ∧ convert_and_add_channel channels identifier true resolve
          = { ok := true, message := identifier,
              channels := channels ++ [(identifier, identifier)], usedApi := false } := by
  have hlen : (identifier.length == 24) = true := by simp [h1]
  have hcond : (identifier.length == 24 && pyStartswith identifier "UC") = true := by
    rw [hlen, h2]
    rfl
  have hcond' : (pyStartswith identifier "UC" && identifier.length == 24) = true := by
    rw [hlen, h2]
    rfl
  have hconv : convert_and_add_channel channels identifier true resolve
      = { ok := true, message := identifier,
          channels := channels ++ [(identifier, identifier)], usedApi := false } := by
    unfold convert_and_add_channel
    rw [hcond']
    simp only [if_true]
    rw [h3]
    rfl
  refine ⟨?_, ?_, hconv⟩
  · unfold get_channel_id
    rw [hcond]
    rfl
  · rw [hconv]

/-- Witness for C10 at a concrete well-shaped channel id, with oracles
that would answer differently if consulted. -/
theorem c10_channel_id_shape_short_circuit_witness :
    ("UCdQw4w9WgXcQfoobarbazqu" : String).length = 24
      ∧ pyStartswith "UCdQw4w9WgXcQfoobarbazqu" "UC" = true
      ∧ List.lookup "UCdQw4w9WgXcQfoobarbazqu" ([("seen", "UCother")] : List (String × String))
          = none
      ∧ (get_channel_id
            { cachedLookup := fun _ => some "UCcached",
              handleResponse := fun _ => some "UChandle",
              searchResponse := fun _ => some "UCsearch" }
            "UCdQw4w9WgXcQfoobarbazqu"
          = { result := some "UCdQw4w9WgXcQfoobarbazqu", cacheReads := [],
              cacheWrites := [], apiCalls := 0 }
        ∧ (convert_and_add_channel [("seen", "UCother")] "UCdQw4w9WgXcQfoobarbazqu" true
            (fun _ => some "UCresolved")).usedApi = false
        ∧ convert_and_add_channel [("seen", "UCother")] "UCdQw4w9WgXcQfoobarbazqu" true
            (fun _ => some "UCresolved")
            = { ok := true, message := "UCdQw4w9WgXcQfoobarbazqu",
                channels := [("seen", "UCother"),
                  ("UCdQw4w9WgXcQfoobarbazqu", "UCdQw4w9WgXcQfoobarbazqu")],
                usedApi := false }) :=
  ⟨by decide, by decide, by decide,
    c10_channel_id_shape_short_circuit
      { cachedLookup := fun _ => some "UCcached",
        handleResponse := fun _ => some "UChandle",
        searchResponse := fun _ => some "UCsearch" }
      [("seen", "UCother")] (fun _ => some "UCresolved") "UCdQw4w9WgXcQfoobarbazqu"
      (by decide) (by decide) (by decide)⟩
